import Mathlib

/-!
Verification of the draggable/resizable floating-window interaction
controller of mini-trade-terminal.

The controller lives in two places with identical transition logic:
the `useDraggableWindow` hook and the inline logic of the
`DraggableWindow` component. Coordinates are JS numbers that only ever
undergo addition, subtraction, `Math.min` and `Math.max`, so they are
embedded as `Int`. React state is embedded as an explicit `WindowState`
record; each event handler becomes a pure function from state (plus the
event payload and the viewport bounds read at call time) to the next
state, paired with a `Bool` where the handler may fire a notification
callback (`onDragStart` / `onDragEnd`).
-/

/-- Point `{x, y}` in viewport-relative coordinates. -/
@[ext]
structure Point where
  x : Int
  y : Int
deriving DecidableEq, Repr

/-- Size `{width, height}`. -/
@[ext]
structure Size where
  width : Int
  height : Int
deriving DecidableEq, Repr

/-- The `resizeStart` record `{x, y, width, height}` captured on resize-handle
mousedown. -/
@[ext]
structure ResizeStart where
  x : Int
  y : Int
  width : Int
  height : Int
deriving DecidableEq, Repr

/-- Configuration supplied at construction: `minWidth` / `minHeight`
(defaults 300 / 400) together with the initial geometry. -/
@[ext]
structure Config where
  initialPosition : Point
  initialSize : Size
  minWidth : Int
  minHeight : Int
deriving DecidableEq, Repr

/-- The default option values of `useDraggableWindow` and `DraggableWindow`:
`initialPosition = (100,100)`, `initialSize = (400,600)`, `minWidth = 300`,
`minHeight = 400`. -/
def defaultConfig : Config :=
  { initialPosition := ⟨100, 100⟩
    initialSize := ⟨400, 600⟩
    minWidth := 300
    minHeight := 400 }

/-- The complete mutable state of the controller: the nine `useState` cells
of the hook (the `windowRef` DOM handle is not state). -/
@[ext]
structure WindowState where
  position : Point
  size : Size
  isDragging : Bool
  isResizing : Bool
  isMaximized : Bool
  dragStart : Point
  resizeStart : ResizeStart
  prevPosition : Point
  prevSize : Size
deriving DecidableEq, Repr

/-- Interaction mode of the spec. The code stores two independent booleans;
the mode is the branch `handleMouseMove` takes, with `isDragging` checked
first. -/
inductive InteractionMode where
  | Idle
  | Dragging
  | Resizing
deriving DecidableEq, Repr

/-- Mode derived from the two flags, with the same priority the code's
`if (isDragging) ... else if (isResizing) ...` uses. -/
def WindowState.mode (s : WindowState) : InteractionMode :=
  if s.isDragging then .Dragging
  else if s.isResizing then .Resizing
  else .Idle

/-- Initial state of the controller: the `useState` initialisers at the top
of the hook / component body. -/
def initState (cfg : Config) : WindowState :=
  { position := cfg.initialPosition
    size := cfg.initialSize
    isDragging := false
    isResizing := false
    isMaximized := false
    dragStart := ⟨0, 0⟩
    resizeStart := ⟨0, 0, 0, 0⟩
    prevPosition := cfg.initialPosition
    prevSize := cfg.initialSize }

namespace useDraggableWindow

/-- The `handleMouseMove` listener of the hook. `e` is the mouse event's
`(clientX, clientY)`; `viewport` is `(window.innerWidth, window.innerHeight)`
read at call time. -/
def handleMouseMove (cfg : Config) (s : WindowState) (e : Point)
    (viewport : Size) : WindowState :=
  if s.isDragging then
    let newX := e.x - s.dragStart.x
    let newY := e.y - s.dragStart.y
    let maxX := viewport.width - s.size.width
    let maxY := viewport.height - (if s.isMaximized then 0 else s.size.height)
    { s with position := ⟨max 0 (min newX maxX), max 0 (min newY maxY)⟩ }
  else if s.isResizing then
    let deltaX := e.x - s.resizeStart.x
    let deltaY := e.y - s.resizeStart.y
    let newWidth := max cfg.minWidth (s.resizeStart.width + deltaX)
    let newHeight := max cfg.minHeight (s.resizeStart.height + deltaY)
    let maxWidth := viewport.width - s.position.x
    let maxHeight := viewport.height - s.position.y
    { s with size := ⟨min newWidth maxWidth, min newHeight maxHeight⟩ }
  else s

/-- The `handleMouseUp` listener. The returned `Bool` records whether
`onDragEnd` was fired. -/
def handleMouseUp (s : WindowState) : WindowState × Bool :=
  let firedDragEnd := s.isDragging
  let s := if s.isDragging then { s with isDragging := false } else s
  let s := if s.isResizing then { s with isResizing := false } else s
  (s, firedDragEnd)

/-- The `handleHeaderMouseDown` callback. `rect` is
`windowRef.current?.getBoundingClientRect()`: `none` when the ref is
unattached, otherwise the window's top-left `(left, top)`. The returned
`Bool` records whether `onDragStart` was fired. -/
def handleHeaderMouseDown (s : WindowState) (e : Point)
    (rect : Option Point) : WindowState × Bool :=
  if s.isMaximized then (s, false)
  else
    match rect with
    | none => (s, false)
    | some r =>
        ({ s with
            dragStart := ⟨e.x - r.x, e.y - r.y⟩
            isDragging := true }, true)

/-- The `handleResizeMouseDown` callback (`e.stopPropagation()` is a DOM
effect, not controller state). -/
def handleResizeMouseDown (s : WindowState) (e : Point) : WindowState :=
  if s.isMaximized then s
  else
    { s with
        resizeStart := ⟨e.x, e.y, s.size.width, s.size.height⟩
        isResizing := true }

/-- The `handleMaximize` callback; `viewport` is
`(window.innerWidth, window.innerHeight)` read at call time. -/
def handleMaximize (s : WindowState) (viewport : Size) : WindowState :=
  if s.isMaximized then
    { s with
        position := s.prevPosition
        size := s.prevSize
        isMaximized := false }
  else
    { s with
        prevPosition := s.position
        prevSize := s.size
        position := ⟨0, 0⟩
        size := ⟨viewport.width, viewport.height⟩
        isMaximized := true }

/-- One external event delivered to the controller. -/
inductive Event where
  | move (e : Point) (viewport : Size)
  | up
  | headerDown (e : Point) (rect : Option Point)
  | resizeDown (e : Point)
  | maximize (viewport : Size)
deriving DecidableEq, Repr

/-- Transition on one event, discarding the notification flags. -/
def step (cfg : Config) (s : WindowState) : Event → WindowState
  | .move e viewport => handleMouseMove cfg s e viewport
  | .up => (handleMouseUp s).1
  | .headerDown e rect => (handleHeaderMouseDown s e rect).1
  | .resizeDown e => handleResizeMouseDown s e
  | .maximize viewport => handleMaximize s viewport

/-- Run of the controller over a list of events from a given state. -/
def run (cfg : Config) (s : WindowState) : List Event → WindowState
  | [] => s
  | ev :: evs => run cfg (step cfg s ev) evs

/-- Reachable states: those produced by some event sequence from the
initial state. -/
def Reachable (cfg : Config) (s : WindowState) : Prop :=
  ∃ evs : List Event, run cfg (initState cfg) evs = s

end useDraggableWindow

namespace DraggableWindow

/-- The component's inline `handleMouseMove` listener. -/
def handleMouseMove (cfg : Config) (s : WindowState) (e : Point)
    (viewport : Size) : WindowState :=
  if s.isDragging then
    let newX := e.x - s.dragStart.x
    let newY := e.y - s.dragStart.y
    let maxX := viewport.width - s.size.width
    let maxY := viewport.height - (if s.isMaximized then 0 else s.size.height)
    { s with position := ⟨max 0 (min newX maxX), max 0 (min newY maxY)⟩ }
  else if s.isResizing then
    let deltaX := e.x - s.resizeStart.x
    let deltaY := e.y - s.resizeStart.y
    let newWidth := max cfg.minWidth (s.resizeStart.width + deltaX)
    let newHeight := max cfg.minHeight (s.resizeStart.height + deltaY)
    let maxWidth := viewport.width - s.position.x
    let maxHeight := viewport.height - s.position.y
    { s with size := ⟨min newWidth maxWidth, min newHeight maxHeight⟩ }
  else s

/-- The component's inline `handleMouseUp` listener. -/
def handleMouseUp (s : WindowState) : WindowState × Bool :=
  let firedDragEnd := s.isDragging
  let s := if s.isDragging then { s with isDragging := false } else s
  let s := if s.isResizing then { s with isResizing := false } else s
  (s, firedDragEnd)

/-- The component's inline `handleHeaderMouseDown`. -/
def handleHeaderMouseDown (s : WindowState) (e : Point)
    (rect : Option Point) : WindowState × Bool :=
  if s.isMaximized then (s, false)
  else
    match rect with
    | none => (s, false)
    | some r =>
        ({ s with
            dragStart := ⟨e.x - r.x, e.y - r.y⟩
            isDragging := true }, true)

/-- The component's inline `handleResizeMouseDown`. -/
def handleResizeMouseDown (s : WindowState) (e : Point) : WindowState :=
  if s.isMaximized then s
  else
    { s with
        resizeStart := ⟨e.x, e.y, s.size.width, s.size.height⟩
        isResizing := true }

/-- The component's inline `handleMaximize`. -/
def handleMaximize (s : WindowState) (viewport : Size) : WindowState :=
  if s.isMaximized then
    { s with
        position := s.prevPosition
        size := s.prevSize
        isMaximized := false }
  else
    { s with
        prevPosition := s.position
        prevSize := s.size
        position := ⟨0, 0⟩
        size := ⟨viewport.width, viewport.height⟩
        isMaximized := true }

end DraggableWindow

open useDraggableWindow

/-- The mode is `Dragging` exactly when the `isDragging` flag is set. -/
lemma mode_dragging_iff (s : WindowState) :
    s.mode = .Dragging ↔ s.isDragging = true := by
  cases hd : s.isDragging <;> cases hr : s.isResizing <;>
    simp [WindowState.mode, hd, hr]

/-- The mode is `Resizing` exactly when `isDragging` is clear and
`isResizing` is set. -/
lemma mode_resizing_iff (s : WindowState) :
    s.mode = .Resizing ↔ s.isDragging = false ∧ s.isResizing = true := by
  cases hd : s.isDragging <;> cases hr : s.isResizing <;>
    simp [WindowState.mode, hd, hr]

/-- The mode is `Idle` exactly when both flags are clear. -/
lemma mode_idle_iff (s : WindowState) :
    s.mode = .Idle ↔ s.isDragging = false ∧ s.isResizing = false := by
  cases hd : s.isDragging <;> cases hr : s.isResizing <;>
    simp [WindowState.mode, hd, hr]

/-- The state reached in Scenario A after
`beginDrag(pointer=(150,150), windowOrigin=(100,100))` from the default
initial state: `dragStart = (50,50)`, `isDragging = true`. -/
def sA : WindowState :=
  (handleHeaderMouseDown (initState defaultConfig) ⟨150, 150⟩
    (some ⟨100, 100⟩)).1

/-- The state reached in Scenario B after `beginResize(pointer=(500,700))`
from the default initial state: `resizeStart = (500,700,400,600)`,
`isResizing = true`. -/
def sB : WindowState :=
  handleResizeMouseDown (initState defaultConfig) ⟨500, 700⟩

/-- The maximized state reached by `toggleMaximize((1280,800))` from the
default initial state. -/
def sMax : WindowState :=
  handleMaximize (initState defaultConfig) ⟨1280, 800⟩

/-- C1: while `mode == Dragging`, a pointer move sets
`position.x = max(0, min(pointerPos.x - dragAnchor.x, viewport.width - size.width))`
and
`position.y = max(0, min(pointerPos.y - dragAnchor.y, viewport.height - (isMaximized ? 0 : size.height)))`,
and each coordinate is `0` whenever its upper bound is negative. -/
theorem dragMove_clamps_position (cfg : Config) (s : WindowState) (e : Point)
    (viewport : Size) (h : s.mode = .Dragging) :
    (handleMouseMove cfg s e viewport).position.x =
      max 0 (min (e.x - s.dragStart.x) (viewport.width - s.size.width)) ∧
    (handleMouseMove cfg s e viewport).position.y =
      max 0 (min (e.y - s.dragStart.y)
        (viewport.height - (if s.isMaximized then 0 else s.size.height))) ∧
    (viewport.width - s.size.width < 0 →
      (handleMouseMove cfg s e viewport).position.x = 0) ∧
    (viewport.height - (if s.isMaximized then 0 else s.size.height) < 0 →
      (handleMouseMove cfg s e viewport).position.y = 0) := by
  have hd := (mode_dragging_iff s).mp h
  refine ⟨by simp [handleMouseMove, hd], by simp [handleMouseMove, hd], ?_, ?_⟩ <;>
    · intro hub
      simp [handleMouseMove, hd]
      omega

/-- Witness for C1: Scenario A — from `position=(100,100)`, `size=(400,600)`,
anchor `(50,50)`, viewport `(1280,800)`, moving the pointer to `(900,750)`
produces `position=(850,200)`. -/
theorem dragMove_clamps_position_witness :
    sA.mode = .Dragging ∧
    (handleMouseMove defaultConfig sA ⟨900, 750⟩ ⟨1280, 800⟩).position =
      ⟨850, 200⟩ := by
  refine ⟨by decide, ?_⟩
  have h := dragMove_clamps_position defaultConfig sA ⟨900, 750⟩ ⟨1280, 800⟩
    (by decide)
  refine Point.ext ?_ ?_
  · rw [h.1]; decide
  · rw [h.2.1]; decide

/-- C2: while `mode == Resizing`, a pointer move sets
`size.width = min(max(minWidth, anchor.width + (pointer.x - anchor.origin.x)), viewport.width - position.x)`
(and analogously for height); the min-floor is applied before the viewport
cap, so when the cap is below the minimum the result equals the cap;
position and mode are unchanged. -/
theorem resizeMove_caps_size (cfg : Config) (s : WindowState) (e : Point)
    (viewport : Size) (h : s.mode = .Resizing) :
    (handleMouseMove cfg s e viewport).size.width =
      min (max cfg.minWidth (s.resizeStart.width + (e.x - s.resizeStart.x)))
        (viewport.width - s.position.x) ∧
    (handleMouseMove cfg s e viewport).size.height =
      min (max cfg.minHeight (s.resizeStart.height + (e.y - s.resizeStart.y)))
        (viewport.height - s.position.y) ∧
    (handleMouseMove cfg s e viewport).position = s.position ∧
    (handleMouseMove cfg s e viewport).mode = .Resizing ∧
    (viewport.width - s.position.x < cfg.minWidth →
      (handleMouseMove cfg s e viewport).size.width =
        viewport.width - s.position.x) ∧
    (viewport.height - s.position.y < cfg.minHeight →
      (handleMouseMove cfg s e viewport).size.height =
        viewport.height - s.position.y) := by
  obtain ⟨hd, hr⟩ := (mode_resizing_iff s).mp h
  refine ⟨by simp [handleMouseMove, hd, hr], by simp [handleMouseMove, hd, hr],
    by simp [handleMouseMove, hd, hr],
    by simp [handleMouseMove, WindowState.mode, hd, hr], ?_, ?_⟩ <;>
    · intro hub
      simp [handleMouseMove, hd, hr]
      omega

/-- Witness for C2: Scenario B — from `size=(400,600)`, `position=(100,100)`,
anchor origin `(500,700)`, viewport `(1280,800)`, moving the pointer to
`(520,650)` produces `size=(420,550)` with position unchanged. -/
theorem resizeMove_caps_size_witness :
    sB.mode = .Resizing ∧
    (handleMouseMove defaultConfig sB ⟨520, 650⟩ ⟨1280, 800⟩).size =
      ⟨420, 550⟩ ∧
    (handleMouseMove defaultConfig sB ⟨520, 650⟩ ⟨1280, 800⟩).position =
      ⟨100, 100⟩ := by
  have h := resizeMove_caps_size defaultConfig sB ⟨520, 650⟩ ⟨1280, 800⟩
    (by decide)
  refine ⟨by decide, ?_, ?_⟩
  · refine Size.ext ?_ ?_
    · rw [h.1]; decide
    · rw [h.2.1]; decide
  · rw [h.2.2.1]; decide

/-- C3 counterexample: from a non-maximized state with `mode == Dragging`
(Scenario A's post-`beginDrag` state), `beginResize(pointer=(500,700))` does
NOT return the state unchanged — it records the resize anchor and sets
`isResizing`. -/
theorem beginResize_while_dragging_changes_state :
    sA.mode = .Dragging ∧ sA.isMaximized = false ∧
    handleResizeMouseDown sA ⟨500, 700⟩ ≠ sA := by decide

/-- C3 amended: `beginDrag` and `beginResize` reject only while maximized.
On any non-maximized state — regardless of the current mode —
`beginResize` records the resize anchor and sets `isResizing`, leaving
`isDragging` as it was, and `beginDrag` records the drag anchor, sets
`isDragging` and fires `onDragStart`, leaving `isResizing` as it was; so
mutual exclusion of Dragging and Resizing is not enforced by the
controller. -/
theorem beginHandlers_check_only_isMaximized (s : WindowState) (e : Point)
    (o : Point) (hmax : s.isMaximized = false) :
    handleResizeMouseDown s e =
      { s with
          resizeStart := ⟨e.x, e.y, s.size.width, s.size.height⟩
          isResizing := true } ∧
    handleHeaderMouseDown s e (some o) =
      ({ s with
          dragStart := ⟨e.x - o.x, e.y - o.y⟩
          isDragging := true }, true) := by
  exact ⟨by simp [handleResizeMouseDown, hmax],
    by simp [handleHeaderMouseDown, hmax]⟩

/-- Witness for the amended C3, at Scenario A's dragging state: `beginResize`
sets `isResizing` while `isDragging` stays `true`. -/
theorem beginHandlers_check_only_isMaximized_witness :
    handleResizeMouseDown sA ⟨500, 700⟩ =
      { sA with resizeStart := ⟨500, 700, 400, 600⟩, isResizing := true } ∧
    (handleResizeMouseDown sA ⟨500, 700⟩).isDragging = true := by
  have h := beginHandlers_check_only_isMaximized sA ⟨500, 700⟩ ⟨0, 0⟩
    (by decide)
  exact ⟨by rw [h.1]; decide, by rw [h.1]; decide⟩

/-- C4: from any non-maximized state, `toggleMaximize` followed by
`toggleMaximize` restores position and size bit-for-bit and clears
`isMaximized`; the restore branch ignores the viewport entirely (the second
toggle may even see a different viewport), so no clamping is applied to the
restored geometry. -/
theorem toggleMaximize_roundTrip (s : WindowState) (v v' : Size)
    (h : s.isMaximized = false) :
    (handleMaximize (handleMaximize s v) v').position = s.position ∧
    (handleMaximize (handleMaximize s v) v').size = s.size ∧
    (handleMaximize (handleMaximize s v) v').isMaximized = false := by
  simp [handleMaximize, h]

/-- Witness for C4: Scenario C — maximize from `position=(100,100)`,
`size=(400,600)` with viewport `(1280,800)`, then restore with a shrunk
viewport `(500,300)`: geometry comes back exactly. -/
theorem toggleMaximize_roundTrip_witness :
    (initState defaultConfig).isMaximized = false ∧
    (handleMaximize (handleMaximize (initState defaultConfig) ⟨1280, 800⟩)
        ⟨500, 300⟩).position = ⟨100, 100⟩ ∧
    (handleMaximize (handleMaximize (initState defaultConfig) ⟨1280, 800⟩)
        ⟨500, 300⟩).size = ⟨400, 600⟩ := by
  have h := toggleMaximize_roundTrip (initState defaultConfig) ⟨1280, 800⟩
    ⟨500, 300⟩ (by decide)
  exact ⟨by decide, by rw [h.1]; decide, by rw [h.2.1]; decide⟩

/-- C5 counterexample: the state reached from the default initial state by
`beginDrag` followed by `toggleMaximize` is maximized yet its mode is
`Dragging`, not `Idle` — `toggleMaximize` invoked mid-drag does not reset
the mode. -/
theorem maximized_dragging_state_reachable :
    (run defaultConfig (initState defaultConfig)
      [.headerDown ⟨150, 150⟩ (some ⟨100, 100⟩),
       .maximize ⟨1280, 800⟩]).isMaximized = true ∧
    (run defaultConfig (initState defaultConfig)
      [.headerDown ⟨150, 150⟩ (some ⟨100, 100⟩),
       .maximize ⟨1280, 800⟩]).mode = .Dragging := by decide

/-- C5 amended: `toggleMaximize` never changes the interaction mode: it
preserves `isDragging` and `isResizing` on every state, so invoking it
while `mode == Dragging` (or `Resizing`) yields a maximized state whose
mode is still `Dragging` (resp. `Resizing`), and `isMaximized == true`
does not imply `mode == Idle` on reachable states. -/
theorem toggleMaximize_preserves_mode (s : WindowState) (v : Size) :
    (handleMaximize s v).mode = s.mode ∧
    (handleMaximize s v).isDragging = s.isDragging ∧
    (handleMaximize s v).isResizing = s.isResizing := by
  cases h : s.isMaximized <;>
    simp [handleMaximize, WindowState.mode, h]

/-- C6 counterexample: the reachable state obtained by a single
`toggleMaximize` with viewport `(200,100)` has `size = (200,100)`, below
the default minimums `(300,400)` — `toggleMaximize` does not preserve the
size lower bound. -/
theorem maximize_breaks_min_size :
    Reachable defaultConfig (handleMaximize (initState defaultConfig)
      ⟨200, 100⟩) ∧
    (handleMaximize (initState defaultConfig) ⟨200, 100⟩).size.width <
      defaultConfig.minWidth ∧
    (handleMaximize (initState defaultConfig) ⟨200, 100⟩).size.height <
      defaultConfig.minHeight := by
  exact ⟨⟨[.maximize ⟨200, 100⟩], rfl⟩, by decide, by decide⟩

/-- C6 amended: the size lower bound holds after a resize move only when
the viewport cap allows it: the resulting width is at least `minWidth`
whenever `viewport.width - position.x ≥ minWidth`, and equals the cap
`viewport.width - position.x` otherwise (similarly for height); and
`toggleMaximize` from a non-maximized state sets the size to the viewport
bounds regardless of the minimums. -/
theorem minSize_holds_unless_capped (cfg : Config) (s : WindowState)
    (e : Point) (viewport : Size) (h : s.mode = .Resizing) :
    (cfg.minWidth ≤ viewport.width - s.position.x →
      cfg.minWidth ≤ (handleMouseMove cfg s e viewport).size.width) ∧
    (viewport.width - s.position.x < cfg.minWidth →
      (handleMouseMove cfg s e viewport).size.width =
        viewport.width - s.position.x) ∧
    (cfg.minHeight ≤ viewport.height - s.position.y →
      cfg.minHeight ≤ (handleMouseMove cfg s e viewport).size.height) ∧
    (viewport.height - s.position.y < cfg.minHeight →
      (handleMouseMove cfg s e viewport).size.height =
        viewport.height - s.position.y) ∧
    (s.isMaximized = false → (handleMaximize s viewport).size = viewport) := by
  obtain ⟨hd, hr⟩ := (mode_resizing_iff s).mp h
  refine ⟨?_, ?_, ?_, ?_, fun hm => by simp [handleMaximize, hm]⟩ <;>
    · intro hc
      simp [handleMouseMove, hd, hr]
      omega

/-- Witness for the amended C6: in a small viewport `(350,450)` Scenario B's
resize move is capped to `(250,350)`, exactly the viewport caps
`350-100` and `450-100`, both below the minimums `(300,400)`. -/
theorem minSize_holds_unless_capped_witness :
    sB.mode = .Resizing ∧
    (handleMouseMove defaultConfig sB ⟨520, 650⟩ ⟨350, 450⟩).size.width =
      250 ∧
    (handleMouseMove defaultConfig sB ⟨520, 650⟩ ⟨350, 450⟩).size.height =
      350 := by
  have h := minSize_holds_unless_capped defaultConfig sB ⟨520, 650⟩
    ⟨350, 450⟩ (by decide)
  refine ⟨by decide, ?_, ?_⟩
  · rw [h.2.1 (by decide)]; decide
  · rw [h.2.2.2.1 (by decide)]; decide

/-- C7: `endInteraction` is idempotent — a second consecutive call returns
the same state and fires nothing; the first call from `Dragging` fires
`onDragEnd` and goes to `Idle`, from `Resizing` it goes to `Idle` firing
nothing, and from `Idle` it changes nothing and fires nothing. -/
theorem endInteraction_idempotent (s : WindowState) :
    (handleMouseUp (handleMouseUp s).1).1 = (handleMouseUp s).1 ∧
    (handleMouseUp (handleMouseUp s).1).2 = false ∧
    (s.mode = .Dragging →
      (handleMouseUp s).2 = true ∧ (handleMouseUp s).1.mode = .Idle) ∧
    (s.mode = .Resizing →
      (handleMouseUp s).2 = false ∧ (handleMouseUp s).1.mode = .Idle) ∧
    (s.mode = .Idle → (handleMouseUp s).1 = s ∧ (handleMouseUp s).2 = false) := by
  cases hd : s.isDragging <;> cases hr : s.isResizing <;>
    simp [handleMouseUp, WindowState.mode, hd, hr]

/-- Witness for C7, at Scenario A's dragging state: the first release fires
`onDragEnd` and reaches `Idle`; a second release is a no-op that fires
nothing. -/
theorem endInteraction_idempotent_witness :
    sA.mode = .Dragging ∧
    (handleMouseUp sA).2 = true ∧
    (handleMouseUp sA).1.mode = .Idle ∧
    (handleMouseUp (handleMouseUp sA).1).1 = (handleMouseUp sA).1 ∧
    (handleMouseUp (handleMouseUp sA).1).2 = false := by
  have h := endInteraction_idempotent sA
  exact ⟨by decide, (h.2.2.1 (by decide)).1, (h.2.2.1 (by decide)).2,
    h.1, h.2.1⟩

/-- C8: out-of-mode calls are complete no-ops: a pointer move while `Idle`
returns the state unchanged, and while maximized both `beginDrag` and
`beginResize` return the state unchanged and fire no notification. -/
theorem outOfMode_calls_are_noops (cfg : Config) (s : WindowState)
    (e : Point) (viewport : Size) (rect : Option Point) :
    (s.mode = .Idle → handleMouseMove cfg s e viewport = s) ∧
    (s.isMaximized = true →
      handleHeaderMouseDown s e rect = (s, false) ∧
      handleResizeMouseDown s e = s) := by
  refine ⟨fun h => ?_, fun hm => ?_⟩
  · obtain ⟨hd, hr⟩ := (mode_idle_iff s).mp h
    simp [handleMouseMove, hd, hr]
  · exact ⟨by simp [handleHeaderMouseDown, hm], by simp [handleResizeMouseDown, hm]⟩

/-- Witness for C8: a move on the idle initial state is a no-op, and on the
maximized state `sMax` both begin handlers are rejected. -/
theorem outOfMode_calls_are_noops_witness :
    handleMouseMove defaultConfig (initState defaultConfig) ⟨900, 750⟩
      ⟨1280, 800⟩ = initState defaultConfig ∧
    handleHeaderMouseDown sMax ⟨150, 150⟩ (some ⟨0, 0⟩) = (sMax, false) ∧
    handleResizeMouseDown sMax ⟨500, 700⟩ = sMax := by
  have h1 := outOfMode_calls_are_noops defaultConfig (initState defaultConfig)
    ⟨900, 750⟩ ⟨1280, 800⟩ (some ⟨0, 0⟩)
  have h2 := outOfMode_calls_are_noops defaultConfig sMax ⟨150, 150⟩
    ⟨1280, 800⟩ (some ⟨0, 0⟩)
  have h3 := outOfMode_calls_are_noops defaultConfig sMax ⟨500, 700⟩
    ⟨1280, 800⟩ (some ⟨0, 0⟩)
  exact ⟨h1.1 (by decide), (h2.2 (by decide)).1, (h3.2 (by decide)).2⟩

/-- C9: `prevPosition`/`prevSize` (the saved pre-maximize geometry) are
written only by the non-maximized branch of `toggleMaximize`, where they
receive the current position and size; pointer moves, release, both begin
handlers, and the restore branch of `toggleMaximize` leave them
unchanged. -/
theorem savedGeometry_written_only_on_maximize (cfg : Config)
    (s : WindowState) (e : Point) (viewport : Size) (rect : Option Point) :
    ((handleMouseMove cfg s e viewport).prevPosition = s.prevPosition ∧
      (handleMouseMove cfg s e viewport).prevSize = s.prevSize) ∧
    ((handleMouseUp s).1.prevPosition = s.prevPosition ∧
      (handleMouseUp s).1.prevSize = s.prevSize) ∧
    ((handleHeaderMouseDown s e rect).1.prevPosition = s.prevPosition ∧
      (handleHeaderMouseDown s e rect).1.prevSize = s.prevSize) ∧
    ((handleResizeMouseDown s e).prevPosition = s.prevPosition ∧
      (handleResizeMouseDown s e).prevSize = s.prevSize) ∧
    (s.isMaximized = true →
      (handleMaximize s viewport).prevPosition = s.prevPosition ∧
      (handleMaximize s viewport).prevSize = s.prevSize) ∧
    (s.isMaximized = false →
      (handleMaximize s viewport).prevPosition = s.position ∧
      (handleMaximize s viewport).prevSize = s.size) := by
  refine ⟨?_, ?_, ?_, ?_, fun hm => by simp [handleMaximize, hm],
    fun hm => by simp [handleMaximize, hm]⟩
  · cases hd : s.isDragging <;> cases hr : s.isResizing <;>
      simp [handleMouseMove, hd, hr]
  · cases hd : s.isDragging <;> cases hr : s.isResizing <;>
      simp [handleMouseUp, hd, hr]
  · cases hm : s.isMaximized <;> cases rect <;>
      simp [handleHeaderMouseDown, hm]
  · cases hm : s.isMaximized <;> simp [handleResizeMouseDown, hm]

/-- Witness for C9, at Scenario A's dragging state (saved geometry
`(100,100)`/`(400,600)` from the initialisers): the drag move keeps the
saved fields, and maximizing overwrites them with the current geometry. -/
theorem savedGeometry_written_only_on_maximize_witness :
    (handleMouseMove defaultConfig sA ⟨900, 750⟩ ⟨1280, 800⟩).prevPosition =
      sA.prevPosition ∧
    (handleMouseUp sA).1.prevSize = sA.prevSize ∧
    sA.isMaximized = false ∧
    (handleMaximize sA ⟨1280, 800⟩).prevPosition = sA.position ∧
    (handleMaximize sA ⟨1280, 800⟩).prevSize = sA.size := by
  have h := savedGeometry_written_only_on_maximize defaultConfig sA
    ⟨900, 750⟩ ⟨1280, 800⟩ (some ⟨0, 0⟩)
  exact ⟨h.1.1, h.2.1.2, by decide, (h.2.2.2.2.2 (by decide)).1,
    (h.2.2.2.2.2 (by decide)).2⟩

/-- C10: the inline transition logic of the `DraggableWindow` component and
the `useDraggableWindow` hook are extensionally equal: on every state and
every input each of the five operations produces the same next state and
the same notification flag. -/
theorem component_refines_hook (cfg : Config) (s : WindowState) (e : Point)
    (viewport : Size) (rect : Option Point) :
    DraggableWindow.handleMouseMove cfg s e viewport =
      useDraggableWindow.handleMouseMove cfg s e viewport ∧
    DraggableWindow.handleMouseUp s = useDraggableWindow.handleMouseUp s ∧
    DraggableWindow.handleHeaderMouseDown s e rect =
      useDraggableWindow.handleHeaderMouseDown s e rect ∧
    DraggableWindow.handleResizeMouseDown s e =
      useDraggableWindow.handleResizeMouseDown s e ∧
    DraggableWindow.handleMaximize s viewport =
      useDraggableWindow.handleMaximize s viewport := by
  exact ⟨rfl, rfl, rfl, rfl, rfl⟩
